import Mathlib

/- Verification of the Loan Lifecycle Bridge of the micro_lender repository.

   The definitions below are a shallow embedding of the local-ledger branch of
   src/backend/app/services/blockchain_service.py (the branch taken whenever no
   contract and signing account are configured, i.e. self.contract or
   self.account is None) together with the loan-creation HTTP handler of
   src/backend/app/routes/loan_routes.py.

   Modelling conventions:
   - Python floats are modelled as exact rationals (the code performs plain
     arithmetic and an 8-decimal rounding; no float-specific behaviour is part
     of any claim).
   - Python round(x, 8) is modelled as decimal rounding at 8 fractional digits
     with ties going to the even integer (Python banker rounding).
   - Python int(x) is modelled as truncation toward zero.
   - The JSON ledger dict keyed by str(loan_id) is modelled as an association
     list keyed by the numeral itself; decimal printing of naturals is
     injective, so nothing is lost.  A JSON key that is absent from a record
     (funded_amount before the first fund_loan call) is modelled by an Option
     field holding none.
   - self._persist_ledger() calls are recorded in a persisted flag on each
     operation outcome. -/

namespace MicroLender

/-- Python round-half-even of a rational to the nearest integer, as used by the
built-in round. -/
def roundHalfEven (q : ℚ) : ℤ :=
  let f := ⌊q⌋
  let r := q - (f : ℚ)
  if r < 1/2 then f
  else if 1/2 < r then f + 1
  else if f % 2 = 0 then f else f + 1

/-- Python round(x, 8): rounding at 8 fractional decimal digits. -/
def pyRound8 (q : ℚ) : ℚ :=
  ((roundHalfEven (q * 10 ^ 8) : ℤ) : ℚ) / 10 ^ 8

/-- Python int(x): truncation toward zero (numerator and denominator of a
rational in lowest terms, divided with truncation). -/
def pyInt (q : ℚ) : ℤ :=
  q.num.tdiv (q.den : ℤ)

/-- BlockchainService._wei (both branches multiply by 10^18 and take the
integer part): eth_amount * 10 ** 18 truncated to an integer. -/
def toBaseUnits (x : ℚ) : ℤ :=
  pyInt (x * 10 ^ 18)

/-- BlockchainService._from_wei: wei_amount / 10 ** 18. -/
def fromBaseUnits (n : ℤ) : ℚ :=
  (n : ℚ) / 10 ^ 18

/-- One entry of the local JSON ledger, exactly the dict built in
BlockchainService.create_loan.  funded_amount is an Option because
create_loan does not write that key; it first appears in fund_loan via
entry.get("funded_amount", 0.0). -/
structure Loan where
  loan_id : ℕ
  borrower : String
  principal : ℚ
  interest_rate : ℤ
  term_days : ℤ
  total_repayment : ℚ
  amount_repaid : ℚ
  status : String
  kyc_hash : String
  explanation_hash : String
  risk_category : String
  probability_of_default : ℤ
  funded_amount : Option ℚ
deriving DecidableEq, Repr

/-- State of the service in local-ledger mode: the dict self._ledger and the
counter self._local_counter. -/
structure LocalState where
  ledger : List (ℕ × Loan)
  counter : ℕ
deriving DecidableEq, Repr

/-- Dict lookup: self._ledger.get(str(loan_id)) / key in self._ledger. -/
def ledgerGet : List (ℕ × Loan) → ℕ → Option Loan
  | [], _ => none
  | (k, v) :: rest, id => if k = id then some v else ledgerGet rest id

/-- Dict assignment: self._ledger[str(lid)] = entry (update in place, append
when the key is new). -/
def ledgerSet : List (ℕ × Loan) → ℕ → Loan → List (ℕ × Loan)
  | [], id, v => [(id, v)]
  | (k, w) :: rest, id, v =>
    if k = id then (id, v) :: rest else (k, w) :: ledgerSet rest id v

/-- round(principal * (1 + interest_rate / 10000 * term_days / 365), 8) from
BlockchainService.create_loan. -/
def totalRepaymentOf (principal : ℚ) (interest_rate term_days : ℤ) : ℚ :=
  pyRound8 (principal * (1 + (interest_rate : ℚ) / 10000 * (term_days : ℚ) / 365))

/-- Outcome of the local branch of create_loan: the returned dict plus the new
service state and whether _persist_ledger ran. -/
structure CreateOutcome where
  success : Bool
  loan_id : ℕ
  tx_hash : Option String
  st : LocalState
  persisted : Bool
deriving DecidableEq, Repr

/-- Outcome of the local branch of fund_loan / disburse_loan / repay_loan. -/
structure MutOutcome where
  success : Bool
  error : Option String
  tx_hash : Option String
  st : LocalState
  persisted : Bool
deriving DecidableEq, Repr

/-- BlockchainService.create_loan, local-ledger branch: assign the next id,
build the entry dict, store it under the id and persist. -/
def create_loan (st : LocalState) (principal : ℚ) (term_days interest_rate : ℤ)
    (kyc_hash explanation_hash risk_category : String)
    (probability_of_default : ℤ) (borrower_address : String) : CreateOutcome :=
  let lid := st.counter + 1
  let entry : Loan :=
    { loan_id := lid
      borrower := borrower_address
      principal := principal
      interest_rate := interest_rate
      term_days := term_days
      total_repayment := totalRepaymentOf principal interest_rate term_days
      amount_repaid := 0
      status := "Pending"
      kyc_hash := kyc_hash
      explanation_hash := explanation_hash
      risk_category := risk_category
      probability_of_default := probability_of_default
      funded_amount := none }
  { success := true
    loan_id := lid
    tx_hash := none
    st := { ledger := ledgerSet st.ledger lid entry, counter := lid }
    persisted := true }

/-- The two mutation lines of fund_loan on one entry:
entry["funded_amount"] = entry.get("funded_amount", 0.0) + amount, then
status = "Funded" when the running total has reached the principal. -/
def fundStep (entry : Loan) (amount : ℚ) : Loan :=
  let fa := entry.funded_amount.getD 0 + amount
  { entry with
    funded_amount := some fa
    status := if entry.principal ≤ fa then "Funded" else entry.status }

/-- BlockchainService.fund_loan, local-ledger branch. -/
def fund_loan (st : LocalState) (loan_id : ℕ) (amount : ℚ)
    (_lender_address : String) : MutOutcome :=
  match ledgerGet st.ledger loan_id with
  | none =>
    { success := false, error := some "loan_not_found", tx_hash := none
      st := st, persisted := false }
  | some entry =>
    { success := true, error := none, tx_hash := none
      st := { st with ledger := ledgerSet st.ledger loan_id (fundStep entry amount) }
      persisted := true }

/-- BlockchainService.disburse_loan, local-ledger branch: unconditionally set
status to "Disbursed". -/
def disburse_loan (st : LocalState) (loan_id : ℕ)
    (_borrower_address : String) : MutOutcome :=
  match ledgerGet st.ledger loan_id with
  | none =>
    { success := false, error := some "loan_not_found", tx_hash := none
      st := st, persisted := false }
  | some entry =>
    { success := true, error := none, tx_hash := none
      st := { st with
              ledger := ledgerSet st.ledger loan_id { entry with status := "Disbursed" } }
      persisted := true }

/-- The mutation lines of repay_loan on one entry:
entry["amount_repaid"] = round(entry.get("amount_repaid", 0.0) + amount, 8)
(create_loan always writes the key, so the .get default never fires within the
reachable states modelled here), then status = "Repaid" when the running total
has reached total_repayment. -/
def repayStep (entry : Loan) (amount : ℚ) : Loan :=
  let ar := pyRound8 (entry.amount_repaid + amount)
  { entry with
    amount_repaid := ar
    status := if entry.total_repayment ≤ ar then "Repaid" else entry.status }

/-- BlockchainService.repay_loan, local-ledger branch. -/
def repay_loan (st : LocalState) (loan_id : ℕ) (amount : ℚ)
    (_borrower_address : String) : MutOutcome :=
  match ledgerGet st.ledger loan_id with
  | none =>
    { success := false, error := some "loan_not_found", tx_hash := none
      st := st, persisted := false }
  | some entry =>
    { success := true, error := none, tx_hash := none
      st := { st with ledger := ledgerSet st.ledger loan_id (repayStep entry amount) }
      persisted := true }

/-- BlockchainService.get_loan, local-ledger branch:
self._ledger.get(str(loan_id)). -/
def get_loan (st : LocalState) (loan_id : ℕ) : Option Loan :=
  ledgerGet st.ledger loan_id

/-- One mutating call against the local ledger. -/
inductive LoanOp where
  | fund (loan_id : ℕ) (amount : ℚ) (lender : String)
  | disburse (loan_id : ℕ) (borrower : String)
  | repay (loan_id : ℕ) (amount : ℚ) (borrower : String)
deriving DecidableEq, Repr

/-- The service state after one mutating call. -/
def applyOp (st : LocalState) : LoanOp → LocalState
  | .fund id a l => (fund_loan st id a l).st
  | .disburse id b => (disburse_loan st id b).st
  | .repay id a b => (repay_loan st id a b).st

/-- The service state after a sequence of mutating calls. -/
def applyOps (st : LocalState) (ops : List LoanOp) : LocalState :=
  ops.foldl applyOp st

/-- A sequence of fund_loan calls on one loan with the given amounts. -/
def fundCalls (loan_id : ℕ) (lender : String) (amounts : List ℚ) : List LoanOp :=
  amounts.map (fun a => LoanOp.fund loan_id a lender)

/-- Iterating the fund_loan entry mutation over a list of amounts. -/
def fundIter (entry : Loan) (amounts : List ℚ) : Loan :=
  amounts.foldl fundStep entry

/-- Application-level state seen by the loan-creation route: the KYC record
store (kyc_records.json keys), the explanation record store (the stored
explanation hashes), and the blockchain-service state. -/
structure AppState where
  kycRecords : List String
  explanations : List String
  chain : LocalState
deriving DecidableEq, Repr

/-- HTTP outcome of the loan-creation route. -/
structure RouteResult where
  status_code : ℕ
  loan_id : Option ℕ
deriving DecidableEq, Repr

/-- The create_loan handler of src/backend/app/routes/loan_routes.py: it calls
BlockchainService.create_loan directly with the request fields and returns 200
on success and 500 otherwise.  It consults neither record store. -/
def route_create_loan (st : AppState) (principal : ℚ)
    (term_days interest_rate : ℤ)
    (kyc_hash explanation_hash risk_category : String)
    (probability_of_default : ℤ) (borrower_address : String) :
    RouteResult × AppState :=
  let tx := create_loan st.chain principal term_days interest_rate kyc_hash
    explanation_hash risk_category probability_of_default borrower_address
  if tx.success then
    ({ status_code := 200, loan_id := some tx.loan_id }, { st with chain := tx.st })
  else
    ({ status_code := 500, loan_id := none }, { st with chain := tx.st })

/-- Non-negativity of the running totals of every ledger entry. -/
def nonnegLedger (st : LocalState) : Prop :=
  ∀ id e, ledgerGet st.ledger id = some e →
    0 ≤ e.funded_amount.getD 0 ∧ 0 ≤ e.amount_repaid

/-- The amount passed to a mutating call is non-negative. -/
def opNonneg : LoanOp → Prop
  | .fund _ a _ => 0 ≤ a
  | .disburse _ _ => True
  | .repay _ a _ => 0 ≤ a

/-- The concrete hashes of the spec scenario, well-formed 0x-prefixed 64-digit
hex identifiers. -/
def exKh : String :=
  "0x1111111111111111111111111111111111111111111111111111111111111111"

def exEh : String :=
  "0x2222222222222222222222222222222222222222222222222222222222222222"

/-- Scenario state after createLoan(1.0, 90, 1000, kh, eh, "Low", 250,
"0xBorrower") on an empty local ledger. -/
def exSt1 : LocalState :=
  (create_loan ⟨[], 0⟩ 1 90 1000 exKh exEh "Low" 250 "0xBorrower").st

/-- Scenario state after fundLoan(1, 1.0, "0xLender"). -/
def exSt2 : LocalState :=
  (fund_loan exSt1 1 1 "0xLender").st

/-- Scenario state after repayLoan(1, 1.2466, "0xBorrower"). -/
def exSt3 : LocalState :=
  (repay_loan exSt2 1 (12466/10000) "0xBorrower").st

/-- The ledger entry created by the scenario createLoan call. -/
def exLoan1 : Loan :=
  { loan_id := 1
    borrower := "0xBorrower"
    principal := 1
    interest_rate := 1000
    term_days := 90
    total_repayment := 102465753 / 100000000
    amount_repaid := 0
    status := "Pending"
    kyc_hash := exKh
    explanation_hash := exEh
    risk_category := "Low"
    probability_of_default := 250
    funded_amount := none }

/-- The scenario entry after the fund call: funded_amount written, status
"Funded". -/
def exLoan2 : Loan :=
  { exLoan1 with funded_amount := some 1, status := "Funded" }

/-- The scenario entry after the repay call: amount_repaid written, status
"Repaid". -/
def exLoan3 : Loan :=
  { exLoan2 with amount_repaid := 12466 / 10000, status := "Repaid" }

/- ===================== Helper lemmas ===================== -/

lemma ledgerGet_ledgerSet_self (l : List (ℕ × Loan)) (k : ℕ) (v : Loan) :
    ledgerGet (ledgerSet l k v) k = some v := by
  induction l with
  | nil => simp [ledgerSet, ledgerGet]
  | cons hd tl ih =>
    obtain ⟨k0, v0⟩ := hd
    by_cases h : k0 = k
    · simp [ledgerSet, ledgerGet, h]
    · simp [ledgerSet, ledgerGet, h, ih]

lemma ledgerGet_ledgerSet_of_ne (l : List (ℕ × Loan)) (k j : ℕ) (v : Loan)
    (h : k ≠ j) : ledgerGet (ledgerSet l k v) j = ledgerGet l j := by
  induction l with
  | nil => simp [ledgerSet, ledgerGet, h]
  | cons hd tl ih =>
    obtain ⟨k0, v0⟩ := hd
    by_cases h0 : k0 = k
    · subst h0
      simp [ledgerSet, ledgerGet, h]
    · by_cases h1 : k0 = j <;> simp [ledgerSet, ledgerGet, h0, h1, ih, Ne.symm h]

lemma roundHalfEven_eq_left (q : ℚ) (z : ℤ) (h1 : (z : ℚ) ≤ q)
    (h2 : q < (z : ℚ) + 1/2) : roundHalfEven q = z := by
  have hf : ⌊q⌋ = z := by
    rw [Int.floor_eq_iff]
    constructor
    · exact h1
    · linarith [h2]
  simp only [roundHalfEven, hf]
  rw [if_pos (by linarith)]

lemma roundHalfEven_eq_right (q : ℚ) (z : ℤ) (h1 : (z : ℚ) + 1/2 < q)
    (h2 : q < (z : ℚ) + 1) : roundHalfEven q = z + 1 := by
  have hf : ⌊q⌋ = z := by
    rw [Int.floor_eq_iff]
    constructor
    · linarith
    · linarith [h2]
  simp only [roundHalfEven, hf]
  rw [if_neg (by linarith), if_pos (by linarith)]

lemma roundHalfEven_intCast (z : ℤ) : roundHalfEven (z : ℚ) = z :=
  roundHalfEven_eq_left _ z (le_refl _) (by norm_num)

lemma roundHalfEven_nonneg (q : ℚ) (h : 0 ≤ q) : 0 ≤ roundHalfEven q := by
  have hf : 0 ≤ ⌊q⌋ := Int.floor_nonneg.2 h
  simp only [roundHalfEven]
  split
  · exact hf
  · split
    · omega
    · split <;> omega

lemma pyRound8_nonneg (q : ℚ) (h : 0 ≤ q) : 0 ≤ pyRound8 q := by
  have h8 : (0 : ℚ) ≤ q * 10 ^ 8 := by positivity
  have := roundHalfEven_nonneg (q * 10 ^ 8) h8
  unfold pyRound8
  positivity

lemma pyRound8_of_eq_int (q : ℚ) (z : ℤ) (h : q * 10 ^ 8 = (z : ℚ)) :
    pyRound8 q = (z : ℚ) / 10 ^ 8 := by
  rw [pyRound8, h, roundHalfEven_intCast]

lemma exTr_eval : totalRepaymentOf 1 1000 90 = 102465753 / 100000000 := by
  have harg : (1 : ℚ) * (1 + (1000 : ℤ) / 10000 * (90 : ℤ) / 365) = 374 / 365 := by
    norm_num
  have hmul : ((374 : ℚ) / 365) * 10 ^ 8 = 37400000000 / 365 := by norm_num
  have hr : roundHalfEven (((374 : ℚ) / 365) * 10 ^ 8) = 102465753 := by
    rw [hmul]
    exact roundHalfEven_eq_left _ 102465753 (by norm_num) (by norm_num)
  unfold totalRepaymentOf pyRound8
  rw [harg, hr]
  norm_num

lemma exEntry1 : ledgerGet exSt1.ledger 1 = some exLoan1 := by
  have h := exTr_eval
  simp [exSt1, create_loan, exLoan1, ledgerSet, ledgerGet, h]

lemma exEntry2 : ledgerGet exSt2.ledger 1 = some exLoan2 := by
  have h1 := exEntry1
  have hstep : fundStep exLoan1 1 = exLoan2 := by
    simp only [fundStep, exLoan1, exLoan2]
    norm_num
  simp [exSt2, fund_loan, h1, hstep, ledgerGet_ledgerSet_self]

lemma exEntry3 : ledgerGet exSt3.ledger 1 = some exLoan3 := by
  have h2 := exEntry2
  have hround : pyRound8 ((0 : ℚ) + 12466 / 10000) = 12466 / 10000 := by
    have := pyRound8_of_eq_int ((0 : ℚ) + 12466 / 10000) 124660000 (by norm_num)
    rw [this]
    norm_num
  have hstep : repayStep exLoan2 (12466 / 10000) = exLoan3 := by
    simp only [repayStep, exLoan1, exLoan2, exLoan3]
    rw [hround]
    norm_num
  simp [exSt3, repay_loan, h2, hstep, ledgerGet_ledgerSet_self]

lemma total_repayment_applyOp (st : LocalState) (op : LoanOp) (k : ℕ) :
    (ledgerGet (applyOp st op).ledger k).map Loan.total_repayment
      = (ledgerGet st.ledger k).map Loan.total_repayment := by
  have hset : ∀ (id : ℕ) (e e2 : Loan), ledgerGet st.ledger id = some e →
      e2.total_repayment = e.total_repayment →
      (ledgerGet (ledgerSet st.ledger id e2) k).map Loan.total_repayment
        = (ledgerGet st.ledger k).map Loan.total_repayment := by
    intro id e e2 he htr
    by_cases hk : id = k
    · subst hk
      rw [ledgerGet_ledgerSet_self, he]
      simp [htr]
    · rw [ledgerGet_ledgerSet_of_ne _ _ _ _ hk]
  cases op with
  | fund id a l =>
    rcases he : ledgerGet st.ledger id with _ | e
    · simp [applyOp, fund_loan, he]
    · simp only [applyOp, fund_loan, he]
      exact hset id e _ he rfl
  | disburse id b =>
    rcases he : ledgerGet st.ledger id with _ | e
    · simp [applyOp, disburse_loan, he]
    · simp only [applyOp, disburse_loan, he]
      exact hset id e _ he rfl
  | repay id a b =>
    rcases he : ledgerGet st.ledger id with _ | e
    · simp [applyOp, repay_loan, he]
    · simp only [applyOp, repay_loan, he]
      exact hset id e _ he rfl

lemma total_repayment_applyOps (ops : List LoanOp) :
    ∀ (st : LocalState) (k : ℕ),
      (ledgerGet (applyOps st ops).ledger k).map Loan.total_repayment
        = (ledgerGet st.ledger k).map Loan.total_repayment := by
  induction ops with
  | nil => intro st k; rfl
  | cons op rest ih =>
    intro st k
    have h1 := total_repayment_applyOp st op k
    calc (ledgerGet (applyOps st (op :: rest)).ledger k).map Loan.total_repayment
        = (ledgerGet (applyOps (applyOp st op) rest).ledger k).map Loan.total_repayment := rfl
      _ = (ledgerGet (applyOp st op).ledger k).map Loan.total_repayment := ih _ k
      _ = (ledgerGet st.ledger k).map Loan.total_repayment := h1

lemma applyOps_fundCalls (amounts : List ℚ) :
    ∀ (st : LocalState) (id : ℕ) (lender : String),
      ledgerGet (applyOps st (fundCalls id lender amounts)).ledger id
        = (ledgerGet st.ledger id).map (fun e => fundIter e amounts) := by
  induction amounts with
  | nil =>
    intro st id lender
    rcases he : ledgerGet st.ledger id with _ | e <;>
      simp [applyOps, fundCalls, fundIter, he]
  | cons a rest ih =>
    intro st id lender
    have hunfold : applyOps st (fundCalls id lender (a :: rest))
        = applyOps (applyOp st (LoanOp.fund id a lender)) (fundCalls id lender rest) := rfl
    rcases he : ledgerGet st.ledger id with _ | e
    · have hstep : applyOp st (LoanOp.fund id a lender) = st := by
        simp [applyOp, fund_loan, he]
      rw [hunfold, hstep, ih st id lender, he]
      rfl
    · have hstep : applyOp st (LoanOp.fund id a lender)
          = { st with ledger := ledgerSet st.ledger id (fundStep e a) } := by
        simp [applyOp, fund_loan, he]
      rw [hunfold, hstep, ih _ id lender]
      show (ledgerGet (ledgerSet st.ledger id (fundStep e a)) id).map _ = _
      rw [ledgerGet_ledgerSet_self]
      rfl

lemma fundIter_status (amounts : List ℚ) :
    ∀ e : Loan,
      (fundIter e amounts).status =
        if ∃ j < amounts.length,
            e.principal ≤ e.funded_amount.getD 0 + (amounts.take (j+1)).sum
        then "Funded" else e.status := by
  induction amounts with
  | nil =>
    intro e
    rw [if_neg]
    · rfl
    · rintro ⟨j, hj, _⟩
      simp at hj
  | cons a as ih =>
    intro e
    have hstep : fundIter e (a :: as) = fundIter (fundStep e a) as := rfl
    rw [hstep, ih (fundStep e a)]
    have hp : (fundStep e a).principal = e.principal := rfl
    have hf : (fundStep e a).funded_amount.getD 0 = e.funded_amount.getD 0 + a := rfl
    have hs : (fundStep e a).status
        = if e.principal ≤ e.funded_amount.getD 0 + a then "Funded" else e.status := rfl
    rw [hp, hf, hs]
    by_cases hA : e.principal ≤ e.funded_amount.getD 0 + a
    · rw [if_pos hA]
      have hC : ∃ j < (a :: as).length,
          e.principal ≤ e.funded_amount.getD 0 + ((a :: as).take (j+1)).sum := by
        refine ⟨0, by simp, ?_⟩
        simpa using hA
      rw [if_pos hC]
      split <;> rfl
    · rw [if_neg hA]
      have hiff : (∃ j < as.length,
            e.principal ≤ e.funded_amount.getD 0 + a + (as.take (j+1)).sum)
          ↔ (∃ j < (a :: as).length,
            e.principal ≤ e.funded_amount.getD 0 + ((a :: as).take (j+1)).sum) := by
        constructor
        · rintro ⟨j, hj, hle⟩
          exact ⟨j + 1, by simpa using Nat.succ_lt_succ hj,
            by simpa [add_assoc] using hle⟩
        · rintro ⟨j, hj, hle⟩
          cases j with
          | zero => exact absurd (by simpa using hle) hA
          | succ j2 =>
            exact ⟨j2, by simpa using hj, by simpa [add_assoc] using hle⟩
      rw [if_congr hiff rfl rfl]

lemma nonneg_applyOp (st : LocalState) (op : LoanOp) (h0 : nonnegLedger st)
    (hop : opNonneg op) : nonnegLedger (applyOp st op) := by
  cases op with
  | fund id a l =>
    rcases he : ledgerGet st.ledger id with _ | e
    · have hst : applyOp st (.fund id a l) = st := by simp [applyOp, fund_loan, he]
      rw [hst]
      exact h0
    · have hst : applyOp st (.fund id a l)
          = { st with ledger := ledgerSet st.ledger id (fundStep e a) } := by
        simp [applyOp, fund_loan, he]
      rw [hst]
      intro k ek hk
      by_cases hkid : id = k
      · subst hkid
        rw [show ({ st with ledger := ledgerSet st.ledger id (fundStep e a) }
              : LocalState).ledger = ledgerSet st.ledger id (fundStep e a) from rfl,
            ledgerGet_ledgerSet_self] at hk
        obtain ⟨hfn, hrn⟩ := h0 id e he
        obtain rfl : fundStep e a = ek := by injection hk
        refine ⟨?_, hrn⟩
        have : (fundStep e a).funded_amount.getD 0
            = e.funded_amount.getD 0 + a := rfl
        rw [this]
        exact add_nonneg hfn hop
      · rw [show ({ st with ledger := ledgerSet st.ledger id (fundStep e a) }
              : LocalState).ledger = ledgerSet st.ledger id (fundStep e a) from rfl,
            ledgerGet_ledgerSet_of_ne _ _ _ _ hkid] at hk
        exact h0 k ek hk
  | disburse id b =>
    rcases he : ledgerGet st.ledger id with _ | e
    · have hst : applyOp st (.disburse id b) = st := by
        simp [applyOp, disburse_loan, he]
      rw [hst]
      exact h0
    · have hst : applyOp st (.disburse id b)
          = { st with ledger := ledgerSet st.ledger id { e with status := "Disbursed" } } := by
        simp [applyOp, disburse_loan, he]
      rw [hst]
      intro k ek hk
      by_cases hkid : id = k
      · subst hkid
        rw [show ({ st with
              ledger := ledgerSet st.ledger id { e with status := "Disbursed" } }
              : LocalState).ledger
              = ledgerSet st.ledger id { e with status := "Disbursed" } from rfl,
            ledgerGet_ledgerSet_self] at hk
        obtain rfl : { e with status := "Disbursed" } = ek := by injection hk
        exact h0 id e he
      · rw [show ({ st with
              ledger := ledgerSet st.ledger id { e with status := "Disbursed" } }
              : LocalState).ledger
              = ledgerSet st.ledger id { e with status := "Disbursed" } from rfl,
            ledgerGet_ledgerSet_of_ne _ _ _ _ hkid] at hk
        exact h0 k ek hk
  | repay id a b =>
    rcases he : ledgerGet st.ledger id with _ | e
    · have hst : applyOp st (.repay id a b) = st := by
        simp [applyOp, repay_loan, he]
      rw [hst]
      exact h0
    · have hst : applyOp st (.repay id a b)
          = { st with ledger := ledgerSet st.ledger id (repayStep e a) } := by
        simp [applyOp, repay_loan, he]
      rw [hst]
      intro k ek hk
      by_cases hkid : id = k
      · subst hkid
        rw [show ({ st with ledger := ledgerSet st.ledger id (repayStep e a) }
              : LocalState).ledger = ledgerSet st.ledger id (repayStep e a) from rfl,
            ledgerGet_ledgerSet_self] at hk
        obtain ⟨hfn, hrn⟩ := h0 id e he
        obtain rfl : repayStep e a = ek := by injection hk
        refine ⟨hfn, ?_⟩
        have : (repayStep e a).amount_repaid
            = pyRound8 (e.amount_repaid + a) := rfl
        rw [this]
        exact pyRound8_nonneg _ (add_nonneg hrn hop)
      · rw [show ({ st with ledger := ledgerSet st.ledger id (repayStep e a) }
              : LocalState).ledger = ledgerSet st.ledger id (repayStep e a) from rfl,
            ledgerGet_ledgerSet_of_ne _ _ _ _ hkid] at hk
        exact h0 k ek hk

lemma nonneg_applyOps (ops : List LoanOp) :
    ∀ st : LocalState, nonnegLedger st → (∀ op ∈ ops, opNonneg op) →
      nonnegLedger (applyOps st ops) := by
  induction ops with
  | nil => intro st h0 _; exact h0
  | cons op rest ih =>
    intro st h0 hops
    have h1 : nonnegLedger (applyOp st op) :=
      nonneg_applyOp st op h0 (hops op (by simp))
    exact ih (applyOp st op) h1 (fun o ho => hops o (by simp [ho]))

/- ===================== Claim theorems ===================== -/

/-- Claim C1 (code evaluated at the failing input): the loan-creation route of
loan_routes.py performs no validation of kyc_hash or explanation_hash at all.
On a state whose KYC record store and explanation record store are both empty,
a request carrying well-formed but unknown hashes is answered 200 and a loan
entry is created in the local ledger, contradicting the specified
InvalidReference failure with no backend state change. -/
theorem create_loan_route_skips_hash_validation :
    exKh ∉ (⟨[], [], ⟨[], 0⟩⟩ : AppState).kycRecords
    ∧ exEh ∉ (⟨[], [], ⟨[], 0⟩⟩ : AppState).explanations
    ∧ (route_create_loan ⟨[], [], ⟨[], 0⟩⟩ 1 90 1000 exKh exEh "Low" 250
        "0x4444444444444444444444444444444444444444").1.status_code = 200
    ∧ (ledgerGet (route_create_loan ⟨[], [], ⟨[], 0⟩⟩ 1 90 1000 exKh exEh "Low" 250
        "0x4444444444444444444444444444444444444444").2.chain.ledger 1).map
        Loan.status = some "Pending" := by
  refine ⟨by simp, by simp, rfl, ?_⟩
  simp [route_create_loan, create_loan, ledgerGet_ledgerSet_self]

/-- Claim C2 (amended): Repaid is stable under repay_loan, but it is not
terminal: disburse_loan unconditionally rewrites the status of any existing
loan to Disbursed, including a Repaid one. -/
theorem repaid_stable_under_repay_but_disburse_overrides :
    (∀ (st : LocalState) (id : ℕ) (amt : ℚ) (b : String) (e : Loan),
      ledgerGet st.ledger id = some e → e.status = "Repaid" →
      (ledgerGet (repay_loan st id amt b).st.ledger id).map Loan.status
        = some "Repaid")
    ∧ (∀ (st : LocalState) (id : ℕ) (b : String) (e : Loan),
      ledgerGet st.ledger id = some e →
      (ledgerGet (disburse_loan st id b).st.ledger id).map Loan.status
        = some "Disbursed") := by
  constructor
  · intro st id amt b e he hs
    have hst : (repay_loan st id amt b).st
        = { st with ledger := ledgerSet st.ledger id (repayStep e amt) } := by
      simp [repay_loan, he]
    rw [hst]
    show (ledgerGet (ledgerSet st.ledger id (repayStep e amt)) id).map _ = _
    rw [ledgerGet_ledgerSet_self]
    have hrs : (repayStep e amt).status = "Repaid" := by
      simp only [repayStep]
      split
      · rfl
      · exact hs
    simp [hrs]
  · intro st id b e he
    have hst : (disburse_loan st id b).st
        = { st with ledger := ledgerSet st.ledger id { e with status := "Disbursed" } } := by
      simp [disburse_loan, he]
    rw [hst]
    show (ledgerGet (ledgerSet st.ledger id _) id).map _ = _
    rw [ledgerGet_ledgerSet_self]
    rfl

theorem repaid_stable_witness :
    ledgerGet exSt3.ledger 1 = some exLoan3
    ∧ exLoan3.status = "Repaid"
    ∧ (ledgerGet (repay_loan exSt3 1 1 "0xBorrower").st.ledger 1).map Loan.status
        = some "Repaid"
    ∧ (ledgerGet (disburse_loan exSt3 1 "0xBorrower").st.ledger 1).map Loan.status
        = some "Disbursed" :=
  ⟨exEntry3, rfl,
    repaid_stable_under_repay_but_disburse_overrides.1 exSt3 1 1 "0xBorrower"
      exLoan3 exEntry3 rfl,
    repaid_stable_under_repay_but_disburse_overrides.2 exSt3 1 "0xBorrower"
      exLoan3 exEntry3⟩

/-- Claim C2 (counterexample): after the concrete scenario reaches Repaid, a
disburse_loan call moves the status away from Repaid, so Repaid is not
terminal. -/
theorem repaid_not_terminal :
    (ledgerGet exSt3.ledger 1).map Loan.status = some "Repaid"
    ∧ (ledgerGet (disburse_loan exSt3 1 "0xBorrower").st.ledger 1).map Loan.status
        = some "Disbursed"
    ∧ ("Disbursed" : String) ≠ "Repaid" := by
  refine ⟨?_, ?_, by decide⟩
  · rw [exEntry3]
    rfl
  · have hst : (disburse_loan exSt3 1 "0xBorrower").st
        = { exSt3 with
            ledger := ledgerSet exSt3.ledger 1 { exLoan3 with status := "Disbursed" } } := by
      simp [disburse_loan, exEntry3]
    rw [hst]
    show (ledgerGet (ledgerSet exSt3.ledger 1 _) 1).map _ = _
    rw [ledgerGet_ledgerSet_self]
    rfl

/-- Claim C3: for every loan created through the local backend,
total_repayment is set at creation to
round(principal * (1 + interest_rate/10000 * term_days/365), 8) and no
sequence of later fund_loan, disburse_loan or repay_loan calls ever changes
it. -/
theorem total_repayment_set_once (st : LocalState) (principal : ℚ)
    (term_days interest_rate : ℤ) (kyc_hash explanation_hash risk_category : String)
    (probability_of_default : ℤ) (borrower_address : String) (ops : List LoanOp) :
    (ledgerGet (applyOps (create_loan st principal term_days interest_rate kyc_hash
        explanation_hash risk_category probability_of_default
        borrower_address).st ops).ledger (st.counter + 1)).map Loan.total_repayment
      = some (pyRound8 (principal *
          (1 + (interest_rate : ℚ) / 10000 * (term_days : ℚ) / 365))) := by
  rw [total_repayment_applyOps]
  show (ledgerGet (ledgerSet st.ledger (st.counter + 1) _) (st.counter + 1)).map _ = _
  rw [ledgerGet_ledgerSet_self]
  rfl

/-- Claim C4: for every loan created through the local backend and every
sequence of fund_loan calls on it, after the first k calls the status is
Funded exactly when some prefix of the first k amounts already sums to at
least the principal; in particular the status turns Funded precisely at the
call where the cumulative funded amount first reaches the principal, not
before, and only once. -/
theorem funded_at_first_threshold (st : LocalState) (principal : ℚ)
    (term_days interest_rate : ℤ) (kh eh rc : String) (pd : ℤ)
    (b lender : String) (amounts : List ℚ) (k : ℕ) (hk : k ≤ amounts.length) :
    (ledgerGet (applyOps (create_loan st principal term_days interest_rate kh eh
        rc pd b).st (fundCalls (st.counter + 1) lender (amounts.take k))).ledger
        (st.counter + 1)).map Loan.status
      = some (if ∃ j < k, principal ≤ (amounts.take (j+1)).sum
          then "Funded" else "Pending") := by
  rw [applyOps_fundCalls]
  have hget : ledgerGet (create_loan st principal term_days interest_rate kh eh
      rc pd b).st.ledger (st.counter + 1)
      = some { loan_id := st.counter + 1
               borrower := b
               principal := principal
               interest_rate := interest_rate
               term_days := term_days
               total_repayment := totalRepaymentOf principal interest_rate term_days
               amount_repaid := 0
               status := "Pending"
               kyc_hash := kh
               explanation_hash := eh
               risk_category := rc
               probability_of_default := pd
               funded_amount := none } :=
    ledgerGet_ledgerSet_self _ _ _
  rw [hget, Option.map_some', Option.map_some', fundIter_status]
  have hiff : (∃ j < (amounts.take k).length,
        principal ≤ 0 + ((amounts.take k).take (j+1)).sum)
      ↔ (∃ j < k, principal ≤ (amounts.take (j+1)).sum) := by
    constructor
    · rintro ⟨j, hj, hle⟩
      rw [List.length_take] at hj
      have hjk : j < k := lt_of_lt_of_le hj (min_le_left _ _)
      refine ⟨j, hjk, ?_⟩
      rw [List.take_take, show min (j+1) k = j+1 by omega] at hle
      simpa using hle
    · rintro ⟨j, hj, hle⟩
      refine ⟨j, ?_, ?_⟩
      · rw [List.length_take]
        omega
      · rw [List.take_take, show min (j+1) k = j+1 by omega]
        simpa using hle
  exact congrArg some (if_congr hiff rfl rfl)

theorem funded_at_first_threshold_witness :
    (2 : ℕ) ≤ ([1/2, 1/2] : List ℚ).length
    ∧ (ledgerGet (applyOps (create_loan ⟨[], 0⟩ 1 365 0 exKh exEh "Low" 250
        "0xBorrower").st (fundCalls 1 "0xLender"
        (([1/2, 1/2] : List ℚ).take 2))).ledger 1).map Loan.status
      = some "Funded" := by
  constructor
  · decide
  · have h := funded_at_first_threshold ⟨[], 0⟩ 1 365 0 exKh exEh "Low" 250
      "0xBorrower" "0xLender" [1/2, 1/2] 2 (by decide)
    rw [h, if_pos]
    refine ⟨1, by norm_num, ?_⟩
    norm_num

/-- Claim C5: for a loan id absent from the local ledger, get_loan returns
none and each of fund_loan, disburse_loan and repay_loan reports failure with
the loan_not_found error, and no ledger entry appears under that id. -/
theorem absent_loan_not_found (st : LocalState) (id : ℕ) (amt ramt : ℚ)
    (lender b b2 : String) (h : ledgerGet st.ledger id = none) :
    get_loan st id = none
    ∧ (fund_loan st id amt lender).success = false
    ∧ (fund_loan st id amt lender).error = some "loan_not_found"
    ∧ ledgerGet (fund_loan st id amt lender).st.ledger id = none
    ∧ (disburse_loan st id b).success = false
    ∧ (disburse_loan st id b).error = some "loan_not_found"
    ∧ ledgerGet (disburse_loan st id b).st.ledger id = none
    ∧ (repay_loan st id ramt b2).success = false
    ∧ (repay_loan st id ramt b2).error = some "loan_not_found"
    ∧ ledgerGet (repay_loan st id ramt b2).st.ledger id = none := by
  simp [get_loan, fund_loan, disburse_loan, repay_loan, h]

theorem absent_loan_not_found_witness :
    ledgerGet (⟨[], 0⟩ : LocalState).ledger 5 = none
    ∧ (get_loan ⟨[], 0⟩ 5 = none
      ∧ (fund_loan ⟨[], 0⟩ 5 1 "0xLender").success = false
      ∧ (fund_loan ⟨[], 0⟩ 5 1 "0xLender").error = some "loan_not_found"
      ∧ ledgerGet (fund_loan ⟨[], 0⟩ 5 1 "0xLender").st.ledger 5 = none
      ∧ (disburse_loan ⟨[], 0⟩ 5 "0xBorrower").success = false
      ∧ (disburse_loan ⟨[], 0⟩ 5 "0xBorrower").error = some "loan_not_found"
      ∧ ledgerGet (disburse_loan ⟨[], 0⟩ 5 "0xBorrower").st.ledger 5 = none
      ∧ (repay_loan ⟨[], 0⟩ 5 1 "0xBorrower").success = false
      ∧ (repay_loan ⟨[], 0⟩ 5 1 "0xBorrower").error = some "loan_not_found"
      ∧ ledgerGet (repay_loan ⟨[], 0⟩ 5 1 "0xBorrower").st.ledger 5 = none) :=
  ⟨rfl, absent_loan_not_found ⟨[], 0⟩ 5 1 1 "0xLender" "0xBorrower" "0xBorrower" rfl⟩

/-- Claim C6 (amended): the running totals funded_amount and amount_repaid of
every ledger entry stay non-negative under every sequence of mutating calls
whose amounts are non-negative; the code itself never checks the sign of an
amount, so the restriction to non-negative amounts is necessary. -/
theorem totals_nonneg_of_nonneg_amounts (st : LocalState) (ops : List LoanOp)
    (h0 : nonnegLedger st) (hops : ∀ op ∈ ops, opNonneg op) :
    nonnegLedger (applyOps st ops) :=
  nonneg_applyOps ops st h0 hops

theorem totals_nonneg_witness :
    nonnegLedger ⟨[], 0⟩
    ∧ (∀ op ∈ [LoanOp.fund 1 (1/2) "0xLender", LoanOp.repay 1 (1/2) "0xBorrower"],
        opNonneg op)
    ∧ nonnegLedger (applyOps ⟨[], 0⟩
        [LoanOp.fund 1 (1/2) "0xLender", LoanOp.repay 1 (1/2) "0xBorrower"]) := by
  have h0 : nonnegLedger ⟨[], 0⟩ := by
    intro id e h
    simp [ledgerGet] at h
  have hops : ∀ op ∈ [LoanOp.fund 1 (1/2) "0xLender",
      LoanOp.repay 1 (1/2) "0xBorrower"], opNonneg op := by
    intro op hop
    simp only [List.mem_cons, List.not_mem_nil, or_false] at hop
    rcases hop with rfl | rfl <;> norm_num [opNonneg]
  exact ⟨h0, hops, totals_nonneg_of_nonneg_amounts ⟨[], 0⟩ _ h0 hops⟩

/-- Claim C6 (counterexample): fund_loan accepts a negative amount and drives
funded_amount below zero, so without a sign restriction the totals are not
non-negative. -/
theorem funded_amount_can_go_negative :
    ∃ e, ledgerGet (fund_loan exSt1 1 (-1) "0xLender").st.ledger 1 = some e
      ∧ e.funded_amount.getD 0 < 0 := by
  refine ⟨fundStep exLoan1 (-1), ?_, ?_⟩
  · have hst : (fund_loan exSt1 1 (-1) "0xLender").st
        = { exSt1 with ledger := ledgerSet exSt1.ledger 1 (fundStep exLoan1 (-1)) } := by
      simp [fund_loan, exEntry1]
    rw [hst]
    show ledgerGet (ledgerSet exSt1.ledger 1 _) 1 = _
    rw [ledgerGet_ledgerSet_self]
  · norm_num [fundStep, exLoan1]

/-- Claim C7: converting an amount representable with 18 fractional decimal
digits to the 18-digit fixed-point integer unit and back reproduces it
exactly. -/
theorem wei_round_trip (n : ℤ) (x : ℚ) (h : x = (n : ℚ) / 10 ^ 18) :
    fromBaseUnits (toBaseUnits x) = x := by
  subst h
  have h1 : (n : ℚ) / 10 ^ 18 * 10 ^ 18 = (n : ℚ) := by
    field_simp
  rw [toBaseUnits, h1]
  have h2 : pyInt ((n : ℤ) : ℚ) = n := by
    rw [pyInt, Rat.num_intCast, Rat.den_intCast, Nat.cast_one, Int.tdiv_one]
  rw [h2]
  rfl

theorem wei_round_trip_witness :
    (3 : ℚ) / 2 = ((1500000000000000000 : ℤ) : ℚ) / 10 ^ 18
    ∧ fromBaseUnits (toBaseUnits ((3 : ℚ) / 2)) = (3 : ℚ) / 2 :=
  ⟨by norm_num, wei_round_trip 1500000000000000000 ((3 : ℚ) / 2) (by norm_num)⟩

/-- Claim C8 (counterexample): the concrete scenario createLoan(1.0, 90, 1000,
kh, eh, "Low", 250, "0xBorrower") on an empty local ledger yields loan id 1
with total_repayment 1.02465753, which is more than 0.1 away from the claimed
value near 1.2466. -/
theorem concrete_total_repayment_mismatch :
    (create_loan ⟨[], 0⟩ 1 90 1000 exKh exEh "Low" 250 "0xBorrower").loan_id = 1
    ∧ (ledgerGet exSt1.ledger 1).map Loan.total_repayment
        = some (102465753 / 100000000)
    ∧ (102465753 / 100000000 : ℚ) + 1 / 10 < 12466 / 10000 := by
  refine ⟨rfl, ?_, by norm_num⟩
  rw [exEntry1]
  rfl

/-- Claim C8 (amended): the concrete scenario on an empty local ledger yields
loan id 1 with status Pending and total_repayment 1.02465753 (approximately
1.0247); fundLoan(1, 1.0) then moves the status to Funded and
repayLoan(1, 1.2466) moves it to Repaid. -/
theorem concrete_flow_amended :
    (create_loan ⟨[], 0⟩ 1 90 1000 exKh exEh "Low" 250 "0xBorrower").loan_id = 1
    ∧ (ledgerGet exSt1.ledger 1).map Loan.status = some "Pending"
    ∧ (ledgerGet exSt1.ledger 1).map Loan.total_repayment
        = some (102465753 / 100000000)
    ∧ (ledgerGet exSt2.ledger 1).map Loan.status = some "Funded"
    ∧ (ledgerGet exSt3.ledger 1).map Loan.status = some "Repaid" := by
  refine ⟨rfl, ?_, ?_, ?_, ?_⟩
  · rw [exEntry1]
    rfl
  · rw [exEntry1]
    rfl
  · rw [exEntry2]
    rfl
  · rw [exEntry3]
    rfl

/-- Claim C9 (counterexample): immediately after create_loan the persisted
record has no funded_amount key (modelled as the Option field holding none),
so the record does not contain both running totals. -/
theorem created_record_lacks_funded_amount :
    ∃ e, ledgerGet exSt1.ledger 1 = some e ∧ e.funded_amount = none :=
  ⟨exLoan1, exEntry1, rfl⟩

/-- Claim C9 (amended): immediately after create_loan on the local backend the
record stored under the new id contains every Loan field with amount_repaid
present as the decimal number 0 and status the string "Pending", one of the
four state names; the funded_amount key is absent until the first fund_loan
call. -/
theorem created_record_fields (st : LocalState) (principal : ℚ)
    (term_days interest_rate : ℤ) (kh eh rc : String) (pd : ℤ) (b : String) :
    ledgerGet (create_loan st principal term_days interest_rate kh eh rc pd
        b).st.ledger (st.counter + 1)
      = some { loan_id := st.counter + 1
               borrower := b
               principal := principal
               interest_rate := interest_rate
               term_days := term_days
               total_repayment := totalRepaymentOf principal interest_rate term_days
               amount_repaid := 0
               status := "Pending"
               kyc_hash := kh
               explanation_hash := eh
               risk_category := rc
               probability_of_default := pd
               funded_amount := none }
    ∧ "Pending" ∈ ["Pending", "Funded", "Disbursed", "Repaid"] :=
  ⟨ledgerGet_ledgerSet_self _ _ _, by simp⟩

/-- Claim C10: a fund_loan, disburse_loan or repay_loan call on an id absent
from the local ledger reports failure, leaves the whole service state exactly
unchanged and does not re-persist the store. -/
theorem notfound_leaves_state_unchanged (st : LocalState) (id : ℕ)
    (amt ramt : ℚ) (lender b b2 : String) (h : ledgerGet st.ledger id = none) :
    (fund_loan st id amt lender).st = st
    ∧ (fund_loan st id amt lender).persisted = false
    ∧ (disburse_loan st id b).st = st
    ∧ (disburse_loan st id b).persisted = false
    ∧ (repay_loan st id ramt b2).st = st
    ∧ (repay_loan st id ramt b2).persisted = false := by
  simp [fund_loan, disburse_loan, repay_loan, h]

theorem notfound_leaves_state_unchanged_witness :
    ledgerGet (⟨[], 0⟩ : LocalState).ledger 7 = none
    ∧ ((fund_loan ⟨[], 0⟩ 7 1 "0xLender").st = (⟨[], 0⟩ : LocalState)
      ∧ (fund_loan ⟨[], 0⟩ 7 1 "0xLender").persisted = false
      ∧ (disburse_loan ⟨[], 0⟩ 7 "0xBorrower").st = (⟨[], 0⟩ : LocalState)
      ∧ (disburse_loan ⟨[], 0⟩ 7 "0xBorrower").persisted = false
      ∧ (repay_loan ⟨[], 0⟩ 7 1 "0xBorrower").st = (⟨[], 0⟩ : LocalState)
      ∧ (repay_loan ⟨[], 0⟩ 7 1 "0xBorrower").persisted = false) :=
  ⟨rfl, notfound_leaves_state_unchanged ⟨[], 0⟩ 7 1 1 "0xLender" "0xBorrower"
    "0xBorrower" rfl⟩

end MicroLender
